import Mathlib

/-!
Shallow embedding of the bill-acceptor protocol driver (src/main.py).

Byte sequences are modelled as `List Nat` (each element one byte value);
the commands written to the serial port during one call are collected as a
`List Nat` in emission order.  The escrow branch of `process_response`
reads `response[2]` without a length check, so a frame starting with 0x81
that is shorter than 3 bytes raises IndexError in Python; the embedding
makes that failure explicit with an `Option` result (`none` = the call
raised).  `check_status` wraps the call in a blanket `except`, so a raised
cycle contributes no reactive commands.
-/

/-- Semantic category of a device response, one constructor per branch of
`process_response` in src/main.py (lines 69 to 96). -/
inductive Classified where
  | Idle : Classified
  | PowerUpRequest : Classified
  | Escrow (billTypeCode : Nat) : Classified
  | ErrorEvent (errorCode : Nat) : Classified
  | Unknown (raw : List Nat) : Classified
deriving DecidableEq, Repr

/-- Description lookup of the `error_codes` dict in `handle_error_response`
(src/main.py lines 45 to 57), keyed on the single-byte code, with the dict
`get` fallback "Unknown Error". -/
def error_codes_get (code : Nat) : String :=
  if code = 0x20 then "Motor Failure"
  else if code = 0x21 then "Checksum Error"
  else if code = 0x22 then "Bill Jam"
  else if code = 0x23 then "Bill Removed"
  else if code = 0x24 then "Stacker Open"
  else if code = 0x25 then "Sensor Problem"
  else if code = 0x27 then "Bill Fish"
  else if code = 0x28 then "Stacker Problem"
  else if code = 0x29 then "Bill Reject"
  else if code = 0x2A then "Invalid Command"
  else "Unknown Error"

/-- The reset condition of src/main.py line 60: the one-byte prefix of the
response is one of 0x20 (Motor Failure), 0x22 (Bill Jam), 0x28 (Stacker
Problem). -/
def requires_reset (code : Nat) : Bool :=
  (code == 0x20) || (code == 0x22) || (code == 0x28)

/-- Commands emitted by `handle_error_response` (src/main.py lines 43 to 67):
Reset (0x30) when the first byte is a hardware error code, then always
Enable (0x3E).  `headD 0` models `response[:1]` as dict/list key: an empty
prefix matches no entry, like byte 0 here. -/
def handle_error_response (response : List Nat) : List Nat :=
  (if requires_reset (response.headD 0) then [0x30] else []) ++ [0x3E]

/-- Body of the `if response:` block of `process_response` (src/main.py
lines 81 to 96): dispatch on the normalized response.  Returns the
classification together with the commands emitted, or `none` when the
escrow branch raises IndexError reading `response[2]` (first byte 0x81 but
fewer than 3 bytes). -/
def dispatch_response (response : List Nat) : Option (Classified × List Nat) :=
  match response with
  | [] => some (Classified.Unknown [], [])
  | b :: rest =>
    if b :: rest = [0x80, 0x8F] then
      some (Classified.PowerUpRequest, [0x02])
    else if b = 0x81 then
      match rest with
      | _ :: billType :: _ => some (Classified.Escrow billType, [0x02])
      | _ => none
    else if b = 0x20 ∨ b = 0x21 ∨ b = 0x22 ∨ b = 0x28 then
      some (Classified.ErrorEvent b, handle_error_response (b :: rest))
    else
      some (Classified.Unknown (b :: rest), [])

/-- `process_response` of src/main.py (lines 69 to 96): the standalone idle
byte is ignored, one leading 0x00 is stripped (`startswith` then `[1:]`),
then the stripped response is dispatched. -/
def process_response (response : List Nat) : Option (Classified × List Nat) :=
  if response = [0x00] then some (Classified.Idle, [])
  else if response.take 1 = [0x00] then dispatch_response response.tail
  else dispatch_response response

/-- One poll cycle, `check_status` of src/main.py (lines 98 to 106): emit
Poll (0x0C), then process the incoming bytes when some arrived
(`receive_response` returns `None` on silence, modelled as `[]`); the
blanket `except` swallows a raised `process_response`, contributing no
commands. -/
def check_status (incoming : List Nat) : List Nat :=
  0x0C :: (if incoming = [] then []
    else match process_response incoming with
      | some (_, cmds) => cmds
      | none => [])

/-- Denomination table `get_value_from_bill_type` of src/main.py
(lines 108 to 118), with the dict `get` fallback "Unknown". -/
def get_value_from_bill_type (bill_type : Nat) : String :=
  if bill_type = 64 then "10 nghìn"
  else if bill_type = 65 then "20 nghìn"
  else if bill_type = 66 then "50 nghìn"
  else if bill_type = 67 then "100 nghìn"
  else if bill_type = 68 then "200 nghìn"
  else if bill_type = 69 then "500 nghìn"
  else "Unknown"

/-- Helper: the dispatch on a normalized response never yields the Idle
variant; Idle arises only from the standalone 0x00 check in
`process_response`. -/
theorem dispatch_response_no_idle (response cmds : List Nat) :
    dispatch_response response ≠ some (Classified.Idle, cmds) := by
  rcases response with _ | ⟨b, rest⟩
  · simp [dispatch_response]
  · simp only [dispatch_response]
    split_ifs with h1 h2 h3
    · simp
    · rcases rest with _ | ⟨x, _ | ⟨y, tl⟩⟩ <;> simp
    · simp
    · simp

/-- C1: the classification is NOT total on the code as written.  For the
two-byte frame 81 05 (first byte the escrow marker 0x81, fewer than 3
bytes) `process_response` reads past the end of the frame and raises
IndexError (`none` in the embedding) instead of classifying it as Unknown;
`check_status` swallows the exception via its blanket `except`, so the
cycle emits only the Poll byte 0x0C and no reactive command. -/
theorem short_escrow_frame_raises :
    process_response [0x81, 0x05] = none ∧
    check_status [0x81, 0x05] = [0x0C] := by
  exact ⟨rfl, rfl⟩

/-- C2: for every error code, the recovery commands contain at most one
Reset (0x30) and exactly one Enable (0x3E), Enable last; Reset is emitted
iff the code is 0x20, 0x22 or 0x28; concretely, code 0x22 yields exactly
[Reset, Enable] and code 0x21 yields exactly [Enable]. -/
theorem recovery_sequencing (code : Nat) (rest : List Nat) :
    (handle_error_response (code :: rest)).count 0x30 ≤ 1 ∧
    (handle_error_response (code :: rest)).count 0x3E = 1 ∧
    (handle_error_response (code :: rest)).getLast? = some 0x3E ∧
    ((handle_error_response (code :: rest)).count 0x30 = 1 ↔
      (code = 0x20 ∨ code = 0x22 ∨ code = 0x28)) ∧
    handle_error_response (0x22 :: rest) = [0x30, 0x3E] ∧
    handle_error_response (0x21 :: rest) = [0x3E] := by
  unfold handle_error_response requires_reset
  by_cases h20 : code = 0x20 <;> by_cases h22 : code = 0x22 <;>
    by_cases h28 : code = 0x28 <;> simp_all [List.count_cons]

/-- C3: idle normalization precedes classification: a standalone 0x00 is
Idle with no command emitted; for an input of 0x00 followed by more bytes,
exactly one leading 0x00 is stripped and the remainder dispatched, so
00 80 8F is PowerUpRequest and emits the Acknowledge byte 0x02. -/
theorem idle_normalization :
    process_response [0x00] = some (Classified.Idle, []) ∧
    process_response [0x00, 0x80, 0x8F] = some (Classified.PowerUpRequest, [0x02]) ∧
    ∀ (b : Nat) (rest : List Nat),
      process_response (0x00 :: b :: rest) = dispatch_response (b :: rest) := by
  refine ⟨rfl, rfl, ?_⟩
  intro b rest
  simp [process_response]

/-- C4: end-to-end command emission: every poll cycle emits Poll (0x0C)
first; for the incoming responses 00, 80 8F, 81 05 42, 20 the reactive
commands after the Poll byte are exactly [], [0x02], [0x02],
[0x30, 0x3E] respectively. -/
theorem end_to_end_commands :
    (∀ incoming : List Nat, (check_status incoming).head? = some 0x0C) ∧
    check_status [0x00] = [0x0C] ∧
    check_status [0x80, 0x8F] = [0x0C, 0x02] ∧
    check_status [0x81, 0x05, 0x42] = [0x0C, 0x02] ∧
    check_status [0x20] = [0x0C, 0x30, 0x3E] := by
  exact ⟨fun incoming => rfl, rfl, rfl, rfl, rfl⟩

/-- C5: escrow extraction and denomination lookup: 81 00 41 classifies as
Escrow with bill-type code 0x41 (the third byte) and emits Acknowledge
(0x02); the lookup maps 0x41 (65) to "20 nghìn", and any code outside
64..69, such as 0xFF, maps to "Unknown". -/
theorem escrow_extraction :
    process_response [0x81, 0x00, 0x41] = some (Classified.Escrow 0x41, [0x02]) ∧
    get_value_from_bill_type 0x41 = "20 nghìn" ∧
    get_value_from_bill_type 0xFF = "Unknown" ∧
    ∀ b : Nat, b = 64 ∨ b = 65 ∨ b = 66 ∨ b = 67 ∨ b = 68 ∨ b = 69 ∨
      get_value_from_bill_type b = "Unknown" := by
  refine ⟨rfl, rfl, rfl, ?_⟩
  intro b
  by_cases h64 : b = 64
  · exact Or.inl h64
  by_cases h65 : b = 65
  · exact Or.inr (Or.inl h65)
  by_cases h66 : b = 66
  · exact Or.inr (Or.inr (Or.inl h66))
  by_cases h67 : b = 67
  · exact Or.inr (Or.inr (Or.inr (Or.inl h67)))
  by_cases h68 : b = 68
  · exact Or.inr (Or.inr (Or.inr (Or.inr (Or.inl h68))))
  by_cases h69 : b = 69
  · exact Or.inr (Or.inr (Or.inr (Or.inr (Or.inr (Or.inl h69)))))
  refine Or.inr (Or.inr (Or.inr (Or.inr (Or.inr (Or.inr ?_)))))
  simp [get_value_from_bill_type, h64, h65, h66, h67, h68, h69]

/-- C6: after normalization a nonempty response classifies as ErrorEvent
iff its first byte is one of 0x20, 0x21, 0x22, 0x28; the other
table-known codes 0x23, 0x24, 0x25, 0x27, 0x29, 0x2A classify as Unknown
with no command emitted, so they never trigger recovery. -/
theorem error_dispatch_coverage :
    (∀ (b : Nat) (rest : List Nat),
      (∃ c cmds, dispatch_response (b :: rest) = some (Classified.ErrorEvent c, cmds)) ↔
        (b = 0x20 ∨ b = 0x21 ∨ b = 0x22 ∨ b = 0x28)) ∧
    (∀ rest : List Nat,
      dispatch_response (0x23 :: rest) = some (Classified.Unknown (0x23 :: rest), []) ∧
      dispatch_response (0x24 :: rest) = some (Classified.Unknown (0x24 :: rest), []) ∧
      dispatch_response (0x25 :: rest) = some (Classified.Unknown (0x25 :: rest), []) ∧
      dispatch_response (0x27 :: rest) = some (Classified.Unknown (0x27 :: rest), []) ∧
      dispatch_response (0x29 :: rest) = some (Classified.Unknown (0x29 :: rest), []) ∧
      dispatch_response (0x2A :: rest) = some (Classified.Unknown (0x2A :: rest), [])) := by
  constructor
  · intro b rest
    constructor
    · rintro ⟨c, cmds, h⟩
      simp only [dispatch_response] at h
      split_ifs at h with h1 h2 h3
      · simp at h
      · rcases rest with _ | ⟨x, _ | ⟨y, tl⟩⟩ <;> simp_all
      · exact h3
      · simp at h
    · intro hb
      refine ⟨b, handle_error_response (b :: rest), ?_⟩
      rcases hb with h | h | h | h <;> subst h <;> simp [dispatch_response]
  · intro rest
    refine ⟨?_, ?_, ?_, ?_, ?_, ?_⟩ <;> simp [dispatch_response]

/-- C7: the error table is total: each of the ten known codes maps to its
specific description; every other byte maps to the generic fallback
"Unknown Error", does not satisfy the reset condition, and so the recovery
procedure emits only Enable for it, never Reset. -/
theorem error_table_total :
    error_codes_get 0x20 = "Motor Failure" ∧
    error_codes_get 0x21 = "Checksum Error" ∧
    error_codes_get 0x22 = "Bill Jam" ∧
    error_codes_get 0x23 = "Bill Removed" ∧
    error_codes_get 0x24 = "Stacker Open" ∧
    error_codes_get 0x25 = "Sensor Problem" ∧
    error_codes_get 0x27 = "Bill Fish" ∧
    error_codes_get 0x28 = "Stacker Problem" ∧
    error_codes_get 0x29 = "Bill Reject" ∧
    error_codes_get 0x2A = "Invalid Command" ∧
    ∀ (b : Nat) (rest : List Nat),
      (b = 0x20 ∨ b = 0x21 ∨ b = 0x22 ∨ b = 0x23 ∨ b = 0x24 ∨ b = 0x25 ∨
       b = 0x27 ∨ b = 0x28 ∨ b = 0x29 ∨ b = 0x2A) ∨
      (error_codes_get b = "Unknown Error" ∧ requires_reset b = false ∧
       handle_error_response (b :: rest) = [0x3E]) := by
  refine ⟨rfl, rfl, rfl, rfl, rfl, rfl, rfl, rfl, rfl, rfl, ?_⟩
  intro b rest
  by_cases hmem : b = 0x20 ∨ b = 0x21 ∨ b = 0x22 ∨ b = 0x23 ∨ b = 0x24 ∨
      b = 0x25 ∨ b = 0x27 ∨ b = 0x28 ∨ b = 0x29 ∨ b = 0x2A
  · exact Or.inl hmem
  push_neg at hmem
  obtain ⟨n20, n21, n22, n23, n24, n25, n27, n28, n29, n2A⟩ := hmem
  refine Or.inr ⟨?_, ?_, ?_⟩
  · simp [error_codes_get, n20, n21, n22, n23, n24, n25, n27, n28, n29, n2A]
  · simp [requires_reset, n20, n22, n28]
  · simp [handle_error_response, requires_reset, n20, n22, n28]

/-- C8: empty input is a no-op: with no incoming bytes a poll cycle emits
only the Poll byte 0x0C, and an empty sequence going through
`process_response` yields Unknown (which is a different variant from
Idle) with no command emitted. -/
theorem empty_input_noop :
    check_status [] = [0x0C] ∧
    process_response [] = some (Classified.Unknown [], []) ∧
    Classified.Unknown ([] : List Nat) ≠ Classified.Idle := by
  refine ⟨rfl, rfl, by simp⟩

/-- C9: a doubled idle marker is not Idle: 00 00 has exactly one leading
0x00 stripped, the remaining single 0x00 matches no pattern, so it is
Unknown with no command emitted; indeed an input classifies as Idle iff it
is exactly the one-byte sequence 00. -/
theorem doubled_idle_unknown :
    process_response [0x00, 0x00] = some (Classified.Unknown [0x00], []) ∧
    ∀ response : List Nat,
      (∃ cmds, process_response response = some (Classified.Idle, cmds)) ↔
        response = [0x00] := by
  constructor
  · rfl
  · intro response
    constructor
    · rintro ⟨cmds, h⟩
      unfold process_response at h
      split_ifs at h with h1 h2
      · exact h1
      · exact absurd h (dispatch_response_no_idle _ _)
      · exact absurd h (dispatch_response_no_idle _ _)
    · rintro rfl
      exact ⟨[], rfl⟩

/-- C10: escrow acceptance is unconditional: every response whose first
byte is 0x81 and that has at least 3 bytes classifies as Escrow of its
third byte and emits Acknowledge (0x02), whether or not the bill-type
code is in the denomination table; in particular bill type 0xFF, whose
denomination is "Unknown", is still accepted. -/
theorem escrow_unconditional (x y : Nat) (rest : List Nat) :
    process_response (0x81 :: x :: y :: rest) = some (Classified.Escrow y, [0x02]) ∧
    process_response [0x81, 0x00, 0xFF] = some (Classified.Escrow 0xFF, [0x02]) ∧
    get_value_from_bill_type 0xFF = "Unknown" := by
  refine ⟨?_, rfl, rfl⟩
  simp [process_response, dispatch_response]
